import Mathlib

/-!
Verification of the weather-portal core: shallow embedding of the caching,
sanitization, classification and interval-aggregation code, together with
theorems settling the specification claims.

Modelling conventions:
* Timestamps are integers counting seconds (an hour is 3600, a day 86400);
  Python `datetime.now()` becomes an explicit `now : Int` argument.
* Numeric sensor values are rationals (`ℚ`); the Python floats in play are
  compared against the fixed thresholds, and those comparisons agree with
  exact rational arithmetic for every value appearing in the claims.
* A raw JSON field is a `Field`: absent-or-null, present-but-unparseable
  (float() raises), or a parsed number.
-/

set_option autoImplicit false

namespace WeatherPortal

/-- src/config.py, class WeatherThresholds. -/
def WATER_CRITICAL : ℚ := 1000
def WATER_WARNING : ℚ := 900
def WATER_ALERT : ℚ := 800
def WATER_ADVISORY : ℚ := 700
def RAINFALL_HEAVY : ℚ := 30
def RAINFALL_MODERATE : ℚ := 15
def RAINFALL_LIGHT : ℚ := 5

/-- A raw JSON field value as seen by the Python code: missing or `None`,
present but failing `float()` coercion, or coercible to the number `q`. -/
inductive Field where
  | null
  | unparseable
  | num (q : ℚ)
  deriving DecidableEq, Repr

/-- src/services/metrics_service.py, `MetricsService._to_float`:
`None` and coercion failures give `None`, otherwise the float value. -/
def toFloat : Field → Option ℚ
  | .null => none
  | .unparseable => none
  | .num q => some q

/-- The threshold chain of `MetricsService.get_alert_level` after the
`_to_float` coercion, checked from most to least severe. -/
def alertLevelOfValue (level? : Option ℚ) : String :=
  match level? with
  | none => "normal"
  | some level =>
    if WATER_CRITICAL ≤ level then "critical"
    else if WATER_WARNING ≤ level then "warning"
    else if WATER_ALERT ≤ level then "alert"
    else if WATER_ADVISORY ≤ level then "advisory"
    else "normal"

/-- src/services/metrics_service.py, `MetricsService.get_alert_level`:
`_to_float` the raw value, then the threshold chain. -/
def getAlertLevel (waterLevel : Field) : String :=
  alertLevelOfValue (toFloat waterLevel)

/-- The threshold chain of `MetricsService.get_rainfall_level` after the
`_to_float` coercion. -/
def rainfallLevelOfValue (level? : Option ℚ) : String :=
  match level? with
  | none => "no_data"
  | some level =>
    if RAINFALL_HEAVY ≤ level then "heavy"
    else if RAINFALL_MODERATE ≤ level then "moderate"
    else if RAINFALL_LIGHT ≤ level then "light"
    else "none"

/-- src/services/metrics_service.py, `MetricsService.get_rainfall_level`. -/
def getRainfallLevel (rainfall : Field) : String :=
  rainfallLevelOfValue (toFloat rainfall)

/-- Ordinal severity of an alert-level string, following the spec's total
order normal < advisory < alert < warning < critical. -/
def severityRank : String → Nat
  | "advisory" => 1
  | "alert" => 2
  | "warning" => 3
  | "critical" => 4
  | _ => 0

/-- C5. `get_alert_level` is monotonic non-decreasing in severity as the
water level increases; the boundary values 699.9, 700.0, 799.9, 800.0,
899.9, 900.0, 999.9, 1000.0 classify exactly as the spec's table says; and
null or unparseable input maps to `normal`. -/
theorem get_alert_level_monotone_and_boundaries :
    (∀ v₁ v₂ : ℚ, v₁ ≤ v₂ →
      severityRank (getAlertLevel (.num v₁)) ≤ severityRank (getAlertLevel (.num v₂))) ∧
    getAlertLevel (.num (6999/10)) = "normal" ∧
    getAlertLevel (.num 700) = "advisory" ∧
    getAlertLevel (.num (7999/10)) = "advisory" ∧
    getAlertLevel (.num 800) = "alert" ∧
    getAlertLevel (.num (8999/10)) = "alert" ∧
    getAlertLevel (.num 900) = "warning" ∧
    getAlertLevel (.num (9999/10)) = "warning" ∧
    getAlertLevel (.num 1000) = "critical" ∧
    getAlertLevel .null = "normal" ∧
    getAlertLevel .unparseable = "normal" := by
  constructor
  case right =>
    norm_num [getAlertLevel, alertLevelOfValue, toFloat, WATER_CRITICAL,
      WATER_WARNING, WATER_ALERT, WATER_ADVISORY]
  intro v₁ v₂ h
  simp only [getAlertLevel, alertLevelOfValue, toFloat, WATER_CRITICAL,
    WATER_WARNING, WATER_ALERT, WATER_ADVISORY]
  split_ifs <;> simp [severityRank] <;> linarith

/-- Witness for C5: the monotonicity clause applied at the concrete pair
650 ≤ 1050. -/
theorem get_alert_level_monotone_witness :
    severityRank (getAlertLevel (.num 650)) ≤ severityRank (getAlertLevel (.num 1050)) :=
  get_alert_level_monotone_and_boundaries.1 650 1050 (by decide)

/-! ## Readings and sanitization (src/services/weather_service.py) -/

/-- One sensor reading, as the dict flowing through the services.  `time` is
the outcome of `_parse_timestamp` on the reading's timestamp string (`none`
when the string is missing or unparseable); the numeric fields are the raw
JSON values as `Field`s. -/
structure Reading where
  stationId : Option String := none
  time : Option Int := none
  waterLevel : Field := .null
  hourlyRain : Field := .null
  windSpeed : Field := .null
  temperature : Field := .null
  humidity : Field := .null
  pressure : Field := .null
  heatIndex : Field := .null
  dailyRain : Field := .null
  windDirection : Option String := none
  deriving DecidableEq, Repr

/-- One numeric field of `WeatherService._sanitize_reading`: untouched when
missing or null; on `float()` failure a critical field becomes null and a
non-critical one 0.0; a coercible value is replaced by its float value. -/
def sanitizeField (critical : Bool) : Field → Field
  | .null => .null
  | .unparseable => if critical then .null else .num 0
  | .num q => .num q

/-- src/services/weather_service.py, `WeatherService._sanitize_reading`:
the allow-list is WaterLevel, HourlyRain, WindSpeed, Temperature, Humidity,
Pressure, HeatIndex, DailyRain, with WaterLevel and HourlyRain critical;
WindDirection, when present and non-null, is trimmed and upper-cased. -/
def sanitizeReading (r : Reading) : Reading :=
  { r with
    waterLevel := sanitizeField true r.waterLevel
    hourlyRain := sanitizeField true r.hourlyRain
    windSpeed := sanitizeField false r.windSpeed
    temperature := sanitizeField false r.temperature
    humidity := sanitizeField false r.humidity
    pressure := sanitizeField false r.pressure
    heatIndex := sanitizeField false r.heatIndex
    dailyRain := sanitizeField false r.dailyRain
    windDirection := r.windDirection.map (fun s => s.trim.toUpper) }

/-! ## The cache (src/services/weather_service.py, class WeatherCache)

Wall-clock time is an explicit `now : Int` argument (seconds); every
`datetime.now()` call in a cache method reads this argument. -/

/-- State of `WeatherCache.__init__`: cached data, last fetch attempt, last
successful fetch, the two TTLs (seconds), consecutive error count and the
backoff deadline. -/
structure CacheState where
  data : Option (List Reading)
  lastFetch : Option Int
  lastSuccess : Option Int
  ttlSeconds : Int
  staleTtlSeconds : Int
  fetchErrors : Nat
  backoffUntil : Option Int
  deriving DecidableEq, Repr

/-- Constant `WeatherCache._max_errors_before_backoff`. -/
def maxErrorsBeforeBackoff : Nat := 3

namespace WeatherCache

/-- Method `WeatherCache.get`: `(data, is_fresh, last_success)`; `is_fresh` is the
truthiness of `last_fetch and (now - last_fetch) < ttl`. -/
def get (st : CacheState) (now : Int) : Option (List Reading) × Bool × Option Int :=
  match st.data with
  | none => (none, false, none)
  | some d =>
    let isFresh := match st.lastFetch with
      | some lf => decide (now - lf < st.ttlSeconds)
      | none => false
    (some d, isFresh, st.lastSuccess)

/-- Method `WeatherCache.set`: overwrite data and the fetch time; on success with
truthy (non-empty) data also record the success and clear errors/backoff. -/
def set (st : CacheState) (now : Int) (data : List Reading) (success : Bool) : CacheState :=
  let st' := { st with data := some data, lastFetch := some now }
  if success && !data.isEmpty then
    { st' with lastSuccess := some now, fetchErrors := 0, backoffUntil := none }
  else st'

/-- Method `WeatherCache.record_error`: bump the counter; from the third error on,
set backoff-until to now plus `min(60 * 2 ** (errors - 3), 300)` seconds. -/
def recordError (st : CacheState) (now : Int) : CacheState :=
  let errors := st.fetchErrors + 1
  if maxErrorsBeforeBackoff ≤ errors then
    let backoffSeconds : Int := min (60 * 2 ^ (errors - maxErrorsBeforeBackoff)) 300
    { st with fetchErrors := errors, backoffUntil := some (now + backoffSeconds) }
  else
    { st with fetchErrors := errors }

/-- Method `WeatherCache.should_fetch`: false inside an active backoff window,
true when never fetched, else true once the freshness TTL has elapsed. -/
def shouldFetch (st : CacheState) (now : Int) : Bool :=
  if (match st.backoffUntil with | some b => decide (now < b) | none => false) then
    false
  else
    match st.lastFetch with
    | none => true
    | some lf => decide (st.ttlSeconds ≤ now - lf)

/-- Method `WeatherCache.get_stale_data`: the source tests the age of the last
success but returns the cached data on both branches of that test. -/
def getStaleData (st : CacheState) (now : Int) : Option (List Reading) :=
  match st.data with
  | none => none
  | some d =>
    if (match st.lastSuccess with
        | some ls => decide (now - ls < st.staleTtlSeconds)
        | none => false) then
      some d
    else
      some d

end WeatherCache

/-! ## The fetch pipeline (src/services/weather_service.py, WeatherService) -/

/-- Outcome of the upstream HTTP call made by `_fetch_from_api`: the three
exception paths (timeout, transport error / non-2xx via raise_for_status,
invalid JSON), a JSON array payload, an object with a `data` array, or any
other JSON shape. -/
inductive ApiResponse where
  | timeout
  | requestError
  | invalidJson
  | jsonList (rs : List Reading)
  | jsonDataObject (rs : List Reading)
  | jsonOtherShape
  deriving DecidableEq, Repr

/-- Method `WeatherService._fetch_from_api`: `None` on every failure path,
otherwise the sanitized list. -/
def fetchFromApi : ApiResponse → Option (List Reading)
  | .timeout => none
  | .requestError => none
  | .invalidJson => none
  | .jsonList rs => some (rs.map sanitizeReading)
  | .jsonDataObject rs => some (rs.map sanitizeReading)
  | .jsonOtherShape => none

/-- Method `WeatherService.fetch_weather_data`: returns the resulting list, the
updated cache state, and whether the upstream call was performed.  The
`resp` argument is what the upstream call would yield if performed. -/
def fetchWeatherData (st : CacheState) (now : Int) (resp : ApiResponse)
    (forceRefresh : Bool) : List Reading × CacheState × Bool :=
  let g := WeatherCache.get st now
  let cachedData := (g.1).getD []
  let isFresh := g.2.1
  if isFresh && !forceRefresh then
    (cachedData, st, false)
  else if !WeatherCache.shouldFetch st now && !forceRefresh && !cachedData.isEmpty then
    (cachedData, st, false)
  else
    let freshData := (fetchFromApi resp).getD []
    if !freshData.isEmpty then
      (freshData, WeatherCache.set st now freshData true, true)
    else
      let st1 := WeatherCache.recordError st now
      let staleData := (WeatherCache.getStaleData st1 now).getD []
      if !staleData.isEmpty then
        (staleData, st1, true)
      else
        ([], st1, true)

/-! ## Cache lemmas -/

theorem recordError_data (st : CacheState) (now : Int) :
    (WeatherCache.recordError st now).data = st.data := by
  unfold WeatherCache.recordError
  dsimp only
  split <;> rfl

theorem recordError_lastFetch (st : CacheState) (now : Int) :
    (WeatherCache.recordError st now).lastFetch = st.lastFetch := by
  unfold WeatherCache.recordError
  dsimp only
  split <;> rfl

theorem recordError_lastSuccess (st : CacheState) (now : Int) :
    (WeatherCache.recordError st now).lastSuccess = st.lastSuccess := by
  unfold WeatherCache.recordError
  dsimp only
  split <;> rfl

theorem recordError_ttlSeconds (st : CacheState) (now : Int) :
    (WeatherCache.recordError st now).ttlSeconds = st.ttlSeconds := by
  unfold WeatherCache.recordError
  dsimp only
  split <;> rfl

theorem recordError_fetchErrors (st : CacheState) (now : Int) :
    (WeatherCache.recordError st now).fetchErrors = st.fetchErrors + 1 := by
  unfold WeatherCache.recordError
  dsimp only
  split <;> rfl

/-- Repeated `record_error` calls at the given instants, in order. -/
def applyRecordErrors (st : CacheState) (ts : List Int) : CacheState :=
  ts.foldl WeatherCache.recordError st

theorem applyRecordErrors_append (st : CacheState) (ts : List Int) (t : Int) :
    applyRecordErrors st (ts ++ [t])
      = WeatherCache.recordError (applyRecordErrors st ts) t := by
  simp [applyRecordErrors, List.foldl_append]

theorem applyRecordErrors_fetchErrors (ts : List Int) :
    ∀ st : CacheState, (applyRecordErrors st ts).fetchErrors = st.fetchErrors + ts.length := by
  induction ts with
  | nil => intro st; rfl
  | cons t ts ih =>
    intro st
    have : applyRecordErrors st (t :: ts) = applyRecordErrors (WeatherCache.recordError st t) ts := rfl
    rw [this, ih, recordError_fetchErrors]
    simp; omega

theorem applyRecordErrors_lastFetch (ts : List Int) :
    ∀ st : CacheState, (applyRecordErrors st ts).lastFetch = st.lastFetch := by
  induction ts with
  | nil => intro st; rfl
  | cons t ts ih =>
    intro st
    have : applyRecordErrors st (t :: ts) = applyRecordErrors (WeatherCache.recordError st t) ts := rfl
    rw [this, ih, recordError_lastFetch]

theorem applyRecordErrors_ttlSeconds (ts : List Int) :
    ∀ st : CacheState, (applyRecordErrors st ts).ttlSeconds = st.ttlSeconds := by
  induction ts with
  | nil => intro st; rfl
  | cons t ts ih =>
    intro st
    have : applyRecordErrors st (t :: ts) = applyRecordErrors (WeatherCache.recordError st t) ts := rfl
    rw [this, ih, recordError_ttlSeconds]

/-- On any failure of the upstream call, `fetch_weather_data` returns the
cached dataset when one is present (of any age), and `[]` otherwise. -/
theorem fetch_failure_result (st : CacheState) (now : Int) (resp : ApiResponse)
    (force : Bool) (hfail : fetchFromApi resp = none) :
    (fetchWeatherData st now resp force).1 = st.data.getD [] := by
  unfold fetchWeatherData
  rcases hd : st.data with _ | d
  · simp [WeatherCache.get, hd, hfail, WeatherCache.getStaleData, recordError_data]
  · simp only [WeatherCache.get, hd, hfail, Option.getD_some, Option.getD_none]
    split
    · rfl
    · split
      · rfl
      · simp only [List.isEmpty_nil, Bool.not_true, Bool.false_eq_true, if_false,
          Bool.not_false, if_true]
        unfold WeatherCache.getStaleData
        rw [recordError_data, hd]
        by_cases hne : d.isEmpty
        · simp_all
        · simp_all

/-- C1. For every upstream failure outcome (timeout, transport error or
non-2xx, malformed JSON, wrong payload shape), `fetch_weather_data` is a
total function (the embedding returns a list, never an exception value): it
falls back to the cached dataset, and returns the empty list exactly when
no cached dataset of any age exists (no data, or cached data empty). -/
theorem fetch_weather_data_failure_contract (st : CacheState) (now : Int)
    (resp : ApiResponse) (force : Bool) (hfail : fetchFromApi resp = none) :
    (fetchWeatherData st now resp force).1 = st.data.getD [] ∧
    ((fetchWeatherData st now resp force).1 = [] ↔
      st.data = none ∨ st.data = some []) := by
  have hmain := fetch_failure_result st now resp force hfail
  refine ⟨hmain, ?_⟩
  rw [hmain]
  rcases st.data with _ | d <;> simp

/-- Witness for C1 at a concrete cache state and the invalid-JSON outcome. -/
theorem fetch_weather_data_failure_contract_witness :
    fetchFromApi .invalidJson = none ∧
    (fetchWeatherData
        { data := some [{}], lastFetch := some 5, lastSuccess := some 5,
          ttlSeconds := 60, staleTtlSeconds := 300, fetchErrors := 0,
          backoffUntil := none }
        100 .invalidJson false).1 = [({} : Reading)] := by
  refine ⟨rfl, ?_⟩
  have h := fetch_weather_data_failure_contract
    { data := some [{}], lastFetch := some 5, lastSuccess := some 5,
      ttlSeconds := 60, staleTtlSeconds := 300, fetchErrors := 0,
      backoffUntil := none }
    100 .invalidJson false rfl
  simpa using h.1

/-- C2, counterexample. A cached dataset whose age since the last
success (100000 s) far exceeds the stale window (300 s) is still served
after a failed fetch, so "a dataset older than the stale window is not
served" fails on the code. -/
theorem stale_window_counterexample :
    ((100000 : Int) - 0 ≥ 300) ∧
    fetchFromApi .timeout = none ∧
    (fetchWeatherData
        { data := some [{}], lastFetch := some 0, lastSuccess := some 0,
          ttlSeconds := 60, staleTtlSeconds := 300, fetchErrors := 0,
          backoffUntil := none }
        100000 .timeout false).1 = [({} : Reading)] := by
  refine ⟨by norm_num, rfl, ?_⟩
  decide

/-- C2, amended. After a failed fetch, a previously cached non-empty
dataset is served as fallback regardless of its age: the stale-window test
inside `get_stale_data` returns the cached data on both branches. -/
theorem stale_data_served_regardless_of_age (st : CacheState) (now : Int)
    (resp : ApiResponse) (force : Bool) (d : List Reading)
    (hfail : fetchFromApi resp = none) (hd : st.data = some d) :
    (fetchWeatherData st now resp force).1 = d ∨ d = [] := by
  rcases eq_or_ne d [] with h | h
  · exact Or.inr h
  · left
    have hmain := fetch_failure_result st now resp force hfail
    rw [hmain, hd, Option.getD_some]

/-- Witness for the amended C2: a 100000-second-old dataset (stale window
300 s) is served after a timeout. -/
theorem stale_data_served_regardless_of_age_witness :
    fetchFromApi .timeout = none ∧
    ((fetchWeatherData
        { data := some [{}], lastFetch := some 0, lastSuccess := some 0,
          ttlSeconds := 60, staleTtlSeconds := 300, fetchErrors := 0,
          backoffUntil := none }
        100000 .timeout false).1 = [({} : Reading)] ∨ [({} : Reading)] = []) :=
  ⟨rfl, stale_data_served_regardless_of_age _ 100000 .timeout false [{}] rfl rfl⟩

/-- C3, counterexample. A state in active backoff (`should_fetch` is
false) with an empty cache: with `force_refresh = False` the code still
performs the upstream call (third component `true`) and returns the fetched
data, contradicting "returns whatever data is cached — possibly empty —
without performing an upstream call". -/
theorem backoff_empty_cache_counterexample :
    WeatherCache.shouldFetch
        { data := none, lastFetch := none, lastSuccess := none,
          ttlSeconds := 60, staleTtlSeconds := 300, fetchErrors := 3,
          backoffUntil := some 100 }
        50 = false ∧
    (fetchWeatherData
        { data := none, lastFetch := none, lastSuccess := none,
          ttlSeconds := 60, staleTtlSeconds := 300, fetchErrors := 3,
          backoffUntil := some 100 }
        50 (.jsonList [{}]) false).2.2 = true ∧
    (fetchWeatherData
        { data := none, lastFetch := none, lastSuccess := none,
          ttlSeconds := 60, staleTtlSeconds := 300, fetchErrors := 3,
          backoffUntil := some 100 }
        50 (.jsonList [{}]) false).1 = [sanitizeReading {}] := by
  refine ⟨rfl, ?_, ?_⟩ <;> decide

/-- C3, amended. When `should_fetch()` is false and `force_refresh` is
false, `fetch_weather_data` returns the cached data without an upstream
call provided the cached data is present and non-empty; an absent or empty
cache falls through to an upstream call instead. -/
theorem backoff_with_cached_data_no_upstream_call (st : CacheState) (now : Int)
    (resp : ApiResponse) (d : List Reading)
    (hsf : WeatherCache.shouldFetch st now = false)
    (hd : st.data = some d) (hne : d ≠ []) :
    fetchWeatherData st now resp false = (d, st, false) := by
  unfold fetchWeatherData
  simp only [WeatherCache.get, hd]
  split
  · rfl
  · rw [hsf]
    simp only [Option.getD_some, Bool.not_false, Bool.true_and, Bool.and_true]
    rw [if_pos (by simpa using hne)]

/-- Witness for the amended C3: in active backoff with non-empty cached
data, the cached list is returned and the upstream call is skipped. -/
theorem backoff_with_cached_data_no_upstream_call_witness :
    WeatherCache.shouldFetch
        { data := some [{}], lastFetch := some 0, lastSuccess := some 0,
          ttlSeconds := 60, staleTtlSeconds := 300, fetchErrors := 3,
          backoffUntil := some 100 }
        70 = false ∧
    fetchWeatherData
        { data := some [{}], lastFetch := some 0, lastSuccess := some 0,
          ttlSeconds := 60, staleTtlSeconds := 300, fetchErrors := 3,
          backoffUntil := some 100 }
        70 .timeout false
      = ([{}],
          { data := some [{}], lastFetch := some 0, lastSuccess := some 0,
            ttlSeconds := 60, staleTtlSeconds := 300, fetchErrors := 3,
            backoffUntil := some 100 }, false) :=
  ⟨by decide,
    backoff_with_cached_data_no_upstream_call _ 70 .timeout [{}] (by decide) rfl
      (by decide)⟩

/-- C4. Starting from a cache with error counter 0 (and no backoff),
after `n = ts.length + 1 ≥ 3` consecutive `record_error` calls, the last at
instant `t`, the backoff deadline is `t + min (60 * 2 ^ (n - 3)) 300`;
`should_fetch` is false immediately afterwards, and as soon as that backoff
duration has elapsed it is true again, provided no fetch is recorded within
the freshness TTL of that instant. -/
theorem record_error_backoff_schedule (st : CacheState) (ts : List Int) (t : Int)
    (h0 : st.fetchErrors = 0) (hb : st.backoffUntil = none)
    (hn : maxErrorsBeforeBackoff ≤ ts.length + 1)
    (hF : ∀ lf, st.lastFetch = some lf →
      st.ttlSeconds ≤ t + min (60 * 2 ^ (ts.length + 1 - maxErrorsBeforeBackoff)) 300 - lf) :
    (applyRecordErrors st (ts ++ [t])).backoffUntil
        = some (t + min (60 * 2 ^ (ts.length + 1 - maxErrorsBeforeBackoff)) 300) ∧
    WeatherCache.shouldFetch (applyRecordErrors st (ts ++ [t])) t = false ∧
    WeatherCache.shouldFetch (applyRecordErrors st (ts ++ [t]))
        (t + min (60 * 2 ^ (ts.length + 1 - maxErrorsBeforeBackoff)) 300) = true := by
  have hdur : (0 : Int) < min (60 * 2 ^ (ts.length + 1 - maxErrorsBeforeBackoff)) 300 := by
    refine lt_min ?_ (by norm_num)
    positivity
  set dur : Int := min (60 * 2 ^ (ts.length + 1 - maxErrorsBeforeBackoff)) 300 with hdurdef
  have happ := applyRecordErrors_append st ts t
  have herr : (applyRecordErrors st ts).fetchErrors = ts.length := by
    rw [applyRecordErrors_fetchErrors, h0, Nat.zero_add]
  have hback : (applyRecordErrors st (ts ++ [t])).backoffUntil = some (t + dur) := by
    rw [happ]
    unfold WeatherCache.recordError
    rw [if_pos (by rw [herr]; exact hn)]
    simp only [herr]
  have hLF : (applyRecordErrors st (ts ++ [t])).lastFetch = st.lastFetch := by
    rw [happ, recordError_lastFetch, applyRecordErrors_lastFetch]
  have hTTL : (applyRecordErrors st (ts ++ [t])).ttlSeconds = st.ttlSeconds := by
    rw [happ, recordError_ttlSeconds, applyRecordErrors_ttlSeconds]
  refine ⟨hback, ?_, ?_⟩
  · unfold WeatherCache.shouldFetch
    rw [hback]
    simp only [decide_eq_true_eq]
    rw [if_pos (by omega)]
  · unfold WeatherCache.shouldFetch
    rw [hback]
    simp only [decide_eq_true_eq]
    rw [if_neg (by omega)]
    rw [hLF, hTTL]
    rcases hlf : st.lastFetch with _ | lf
    · rfl
    · simpa using hF lf hlf

/-- Witness for C4: three errors at instants 0, 1, 2 from a cold cache set
the deadline to 2 + 60 = 62; `should_fetch` is false at 2 and true at 62. -/
theorem record_error_backoff_schedule_witness :
    (applyRecordErrors
        { data := none, lastFetch := none, lastSuccess := none,
          ttlSeconds := 60, staleTtlSeconds := 300, fetchErrors := 0,
          backoffUntil := none } [0, 1, 2]).backoffUntil = some 62 ∧
    WeatherCache.shouldFetch
      (applyRecordErrors
        { data := none, lastFetch := none, lastSuccess := none,
          ttlSeconds := 60, staleTtlSeconds := 300, fetchErrors := 0,
          backoffUntil := none } [0, 1, 2]) 2 = false ∧
    WeatherCache.shouldFetch
      (applyRecordErrors
        { data := none, lastFetch := none, lastSuccess := none,
          ttlSeconds := 60, staleTtlSeconds := 300, fetchErrors := 0,
          backoffUntil := none } [0, 1, 2]) 62 = true := by
  have h := record_error_backoff_schedule
    { data := none, lastFetch := none, lastSuccess := none,
      ttlSeconds := 60, staleTtlSeconds := 300, fetchErrors := 0,
      backoffUntil := none }
    [0, 1] 2 rfl rfl (by decide) (fun lf hlf => by simp at hlf)
  have hd : min (60 * 2 ^ (([0, 1] : List Int).length + 1 - maxErrorsBeforeBackoff)) 300
      = (60 : Int) := by decide
  rw [hd] at h
  simpa using h

/-! ## Sanitization contract (C9) -/

/-- C9. `_sanitize_reading` is total (the embedding returns a reading,
never an exception value).  For each numeric field of the fixed allow-list
that is present and fails float coercion, the critical fields WaterLevel
and HourlyRain become null while the six other listed fields become 0.0;
a field that coerces successfully is replaced by its float value. -/
theorem sanitize_reading_contract (r : Reading) :
    (r.waterLevel = .unparseable → (sanitizeReading r).waterLevel = .null) ∧
    (r.hourlyRain = .unparseable → (sanitizeReading r).hourlyRain = .null) ∧
    (r.windSpeed = .unparseable → (sanitizeReading r).windSpeed = .num 0) ∧
    (r.temperature = .unparseable → (sanitizeReading r).temperature = .num 0) ∧
    (r.humidity = .unparseable → (sanitizeReading r).humidity = .num 0) ∧
    (r.pressure = .unparseable → (sanitizeReading r).pressure = .num 0) ∧
    (r.heatIndex = .unparseable → (sanitizeReading r).heatIndex = .num 0) ∧
    (r.dailyRain = .unparseable → (sanitizeReading r).dailyRain = .num 0) ∧
    (∀ q : ℚ, r.waterLevel = .num q → (sanitizeReading r).waterLevel = .num q) ∧
    (∀ q : ℚ, r.hourlyRain = .num q → (sanitizeReading r).hourlyRain = .num q) ∧
    (∀ q : ℚ, r.windSpeed = .num q → (sanitizeReading r).windSpeed = .num q) ∧
    (∀ q : ℚ, r.temperature = .num q → (sanitizeReading r).temperature = .num q) ∧
    (∀ q : ℚ, r.humidity = .num q → (sanitizeReading r).humidity = .num q) ∧
    (∀ q : ℚ, r.pressure = .num q → (sanitizeReading r).pressure = .num q) ∧
    (∀ q : ℚ, r.heatIndex = .num q → (sanitizeReading r).heatIndex = .num q) ∧
    (∀ q : ℚ, r.dailyRain = .num q → (sanitizeReading r).dailyRain = .num q) := by
  refine ⟨?_, ?_, ?_, ?_, ?_, ?_, ?_, ?_, ?_, ?_, ?_, ?_, ?_, ?_, ?_, ?_⟩ <;>
    · intros
      simp_all [sanitizeReading, sanitizeField]

/-- Witness for C9: a reading with an unparseable WaterLevel (critical),
an unparseable WindSpeed (non-critical) and a coercible HourlyRain. -/
theorem sanitize_reading_contract_witness :
    (sanitizeReading { waterLevel := .unparseable, windSpeed := .unparseable, hourlyRain := .num (5/2) }).waterLevel = .null ∧
    (sanitizeReading { waterLevel := .unparseable, windSpeed := .unparseable, hourlyRain := .num (5/2) }).windSpeed = .num 0 ∧
    (sanitizeReading { waterLevel := .unparseable, windSpeed := .unparseable, hourlyRain := .num (5/2) }).hourlyRain = .num (5/2) := by
  obtain ⟨h1, _, h3, _, _, _, _, _, _, h10, _⟩ :=
    sanitize_reading_contract
      { waterLevel := .unparseable, windSpeed := .unparseable, hourlyRain := .num (5/2) }
  exact ⟨h1 rfl, h3 rfl, h10 _ rfl⟩

/-! ## Dashboard metrics (src/services/metrics_service.py) -/

/-- An entry of the configured site list (id and display name). -/
structure Site where
  id : String
  name : String
  deriving DecidableEq, Repr

/-- src/services/metrics_service.py, module constants. -/
def STATION_OFFLINE_THRESHOLD_MINUTES : Int := 60

def TOTAL_STATIONS : Nat := 5

/-- Method `MetricsService._is_station_online`: falsy data or an unparseable
timestamp is offline; otherwise online iff the age is at most 60 minutes. -/
def isStationOnline (data : Option Reading) (now : Int) : Bool :=
  match data with
  | none => false
  | some r =>
    match r.time with
    | none => false
    | some t => decide (now - t ≤ STATION_OFFLINE_THRESHOLD_MINUTES * 60)

/-- Method `MetricsService._get_station_name`: first configured site with the id,
else the id itself. -/
def getStationName (sites : List Site) (stationId : String) : String :=
  match sites.find? (fun s => s.id == stationId) with
  | some s => s.name
  | none => stationId

/-- The per-level counter dict `alert_counts`. -/
structure AlertCounts where
  critical : Nat := 0
  warning : Nat := 0
  alert : Nat := 0
  advisory : Nat := 0
  normal : Nat := 0
  deriving DecidableEq, Repr

/-- Update `alert_counts[alert_level] += 1`; `get_alert_level` only produces the
five keys of the dict, and the final branch is the `normal` bucket. -/
def bumpAlertCount (c : AlertCounts) (lvl : String) : AlertCounts :=
  if lvl = "critical" then { c with critical := c.critical + 1 }
  else if lvl = "warning" then { c with warning := c.warning + 1 }
  else if lvl = "alert" then { c with alert := c.alert + 1 }
  else if lvl = "advisory" then { c with advisory := c.advisory + 1 }
  else { c with normal := c.normal + 1 }

/-- The `StationAlert` dataclass. -/
structure StationAlert where
  stationId : String
  stationName : String
  alertLevel : String
  waterLevel : ℚ
  isOnline : Bool
  lastUpdate : Option Int
  deriving DecidableEq, Repr

/-- The `DashboardMetrics` dataclass; the icon/color/description config
lookups (`RainfallForecastConfig`, `AlertLevelConfig`) are presentation
glue, so the forecast is carried as its level string. -/
structure DashboardMetrics where
  highestAlertLevel : String
  highestAlertCount : Nat
  criticalCount : Nat
  warningCount : Nat
  alertCount : Nat
  advisoryCount : Nat
  attentionStations : List String
  onlineSensors : Nat
  totalSensors : Nat
  offlineStations : List String
  rainfallForecastLevel : String
  stationAlerts : List StationAlert
  deriving DecidableEq, Repr

/-- Loop accumulator of `calculate_dashboard_metrics`. -/
structure DashAcc where
  counts : AlertCounts := {}
  attentionStations : List String := []
  offlineStations : List String := []
  stationAlerts : List StationAlert := []
  onlineCount : Nat := 0
  totalRainfall : ℚ := 0
  rainfallReadings : Nat := 0
  deriving DecidableEq, Repr

/-- One iteration of the `for station_id, data in station_data.items()`
loop; `none` stands for a falsy (absent/empty) per-station dict. -/
def dashboardStep (sites : List Site) (now : Int) (acc : DashAcc)
    (entry : String × Option Reading) : DashAcc :=
  let stationName := getStationName sites entry.1
  match entry.2 with
  | none => { acc with offlineStations := acc.offlineStations ++ [stationName] }
  | some data =>
    let isOnline := isStationOnline (some data) now
    let acc := if isOnline then { acc with onlineCount := acc.onlineCount + 1 }
      else { acc with offlineStations := acc.offlineStations ++ [stationName] }
    let waterLevel := toFloat data.waterLevel
    let alertLevel := alertLevelOfValue waterLevel
    let acc :=
      { acc with
        counts := bumpAlertCount acc.counts alertLevel
        stationAlerts := acc.stationAlerts ++
          [{ stationId := entry.1
             stationName := stationName
             alertLevel := alertLevel
             waterLevel := waterLevel.getD 0
             isOnline := isOnline
             lastUpdate := data.time }] }
    let acc := if alertLevel = "critical" ∨ alertLevel = "warning" ∨ alertLevel = "alert"
      then { acc with attentionStations := acc.attentionStations ++ [stationName] }
      else acc
    match toFloat data.hourlyRain with
    | some rain =>
      { acc with
        totalRainfall := acc.totalRainfall + rain
        rainfallReadings := acc.rainfallReadings + 1 }
    | none => acc

/-- src/services/metrics_service.py, `calculate_dashboard_metrics`. -/
def calculateDashboardMetrics (sites : List Site)
    (stationData : List (String × Option Reading)) (now : Int) : DashboardMetrics :=
  let acc := stationData.foldl (dashboardStep sites now) {}
  let highest : String × Nat :=
    if 0 < acc.counts.critical then ("critical", acc.counts.critical)
    else if 0 < acc.counts.warning then ("warning", acc.counts.warning)
    else if 0 < acc.counts.alert then ("alert", acc.counts.alert)
    else if 0 < acc.counts.advisory then ("advisory", acc.counts.advisory)
    else ("normal", 0)
  let avgRainfall : ℚ :=
    if 0 < acc.rainfallReadings then acc.totalRainfall / acc.rainfallReadings else 0
  { highestAlertLevel := highest.1
    highestAlertCount := highest.2
    criticalCount := acc.counts.critical
    warningCount := acc.counts.warning
    alertCount := acc.counts.alert
    advisoryCount := acc.counts.advisory
    attentionStations := acc.attentionStations
    onlineSensors := acc.onlineCount
    totalSensors := TOTAL_STATIONS
    offlineStations := acc.offlineStations
    rainfallForecastLevel := rainfallLevelOfValue (some avgRainfall)
    stationAlerts := acc.stationAlerts }

/-- The five configured stations used in the C8 scenario. -/
def fiveSites : List Site :=
  [⟨"St1", "Station A"⟩, ⟨"St2", "Station B"⟩, ⟨"St3", "Station C"⟩,
   ⟨"St4", "Station D"⟩, ⟨"St5", "Station E"⟩]

/-- C8. Five stations with water levels 1050, 950, 850, 750, 650 and
all timestamps within the 60-minute freshness threshold of now: one station
per level from critical down to advisory, five online sensors, and the
highest alert level is `critical` (most severe level with non-zero count). -/
theorem dashboard_metrics_five_station_scenario :
    (calculateDashboardMetrics fiveSites
      [("St1", some { waterLevel := .num 1050, time := some 0 }),
       ("St2", some { waterLevel := .num 950, time := some 0 }),
       ("St3", some { waterLevel := .num 850, time := some 0 }),
       ("St4", some { waterLevel := .num 750, time := some 0 }),
       ("St5", some { waterLevel := .num 650, time := some 0 })]
      0).criticalCount = 1 ∧
    (calculateDashboardMetrics fiveSites
      [("St1", some { waterLevel := .num 1050, time := some 0 }),
       ("St2", some { waterLevel := .num 950, time := some 0 }),
       ("St3", some { waterLevel := .num 850, time := some 0 }),
       ("St4", some { waterLevel := .num 750, time := some 0 }),
       ("St5", some { waterLevel := .num 650, time := some 0 })]
      0).warningCount = 1 ∧
    (calculateDashboardMetrics fiveSites
      [("St1", some { waterLevel := .num 1050, time := some 0 }),
       ("St2", some { waterLevel := .num 950, time := some 0 }),
       ("St3", some { waterLevel := .num 850, time := some 0 }),
       ("St4", some { waterLevel := .num 750, time := some 0 }),
       ("St5", some { waterLevel := .num 650, time := some 0 })]
      0).alertCount = 1 ∧
    (calculateDashboardMetrics fiveSites
      [("St1", some { waterLevel := .num 1050, time := some 0 }),
       ("St2", some { waterLevel := .num 950, time := some 0 }),
       ("St3", some { waterLevel := .num 850, time := some 0 }),
       ("St4", some { waterLevel := .num 750, time := some 0 }),
       ("St5", some { waterLevel := .num 650, time := some 0 })]
      0).advisoryCount = 1 ∧
    (calculateDashboardMetrics fiveSites
      [("St1", some { waterLevel := .num 1050, time := some 0 }),
       ("St2", some { waterLevel := .num 950, time := some 0 }),
       ("St3", some { waterLevel := .num 850, time := some 0 }),
       ("St4", some { waterLevel := .num 750, time := some 0 }),
       ("St5", some { waterLevel := .num 650, time := some 0 })]
      0).onlineSensors = 5 ∧
    (calculateDashboardMetrics fiveSites
      [("St1", some { waterLevel := .num 1050, time := some 0 }),
       ("St2", some { waterLevel := .num 950, time := some 0 }),
       ("St3", some { waterLevel := .num 850, time := some 0 }),
       ("St4", some { waterLevel := .num 750, time := some 0 }),
       ("St5", some { waterLevel := .num 650, time := some 0 })]
      0).highestAlertLevel = "critical" := by
  refine ⟨?_, ?_, ?_, ?_, ?_, ?_⟩ <;> decide

/-! ## 24-hour interval aggregation
(src/services/water_level_service.py and precipitation_service.py)

The two services duplicate one algorithm, differing only in the metric
field, the validation range, the classifier and the rounding precision;
the embedding is that algorithm with those four parameters, instantiated
once per service. -/

/-- src/services/water_level_service.py, validation constants. -/
def MIN_VALID_WATER_LEVEL : ℚ := 0
def MAX_VALID_WATER_LEVEL : ℚ := 15

/-- Water-level validation:`MIN_VALID_WATER_LEVEL <= v <= MAX_VALID_WATER_LEVEL`. -/
def validWaterLevel (v : ℚ) : Bool :=
  decide (MIN_VALID_WATER_LEVEL ≤ v ∧ v ≤ MAX_VALID_WATER_LEVEL)

/-- Rainfall validation: the source drops `rainfall_float < 0`. -/
def validRainfall (v : ℚ) : Bool :=
  decide (0 ≤ v)

/-- Python `display_date.replace(hour=0, minute=0, second=0, microsecond=0)`:
midnight of the display date, with seconds-based instants. -/
def displayStartTime (displayDate : Int) : Int :=
  (displayDate.fdiv 86400) * 86400

/-- Python `display_date.replace(hour=END_HOUR, ...)` with `END_HOUR = 23`. -/
def displayEndTime (displayDate : Int) : Int :=
  displayStartTime displayDate + 23 * 3600

/-- Method `_create_hourly_intervals`: starts at `start_time` and steps one hour
(`DATA_INTERVAL_HOURS = 1`) while `current <= end_time`. -/
def createHourlyIntervals (current endT : Int) : List Int :=
  if h : current ≤ endT then
    current :: createHourlyIntervals (current + 3600) endT
  else []
termination_by (endT + 3600 - current).toNat
decreasing_by omega

/-- The latest parsed timestamp across the readings, as in the
display-date resolution loop of `get_24hour_intervals_per_station`. -/
def latestParsedTime (weatherData : List Reading) : Option Int :=
  weatherData.foldl
    (fun acc r =>
      match r.time with
      | some t =>
        match acc with
        | none => some t
        | some m => if m < t then some t else some m
      | none => acc)
    none

/-- Display-date resolution: an explicit target date wins; else the latest
parsed timestamp; else the current time. -/
def resolveDisplayDate (weatherData : List Reading) (targetDate : Option Int)
    (now : Int) : Int :=
  match targetDate with
  | some d => d
  | none =>
    if weatherData.isEmpty then now
    else
      match latestParsedTime weatherData with
      | some t => t
      | none => now

/-- The `for interval_time in intervals: if interval_time <= parsed_time <
next_interval: ...; break` loop: the first interval whose half-open
one-hour window contains `t`. -/
def findSlot (intervals : List Int) (t : Int) : Option Int :=
  intervals.find? (fun i => decide (i ≤ t) && decide (t < i + 3600))

/-- One iteration of the reading loop of
`_group_readings_by_station_and_interval`: the (station, slot, value)
contribution of a reading, or `none` when the reading is skipped
(unparseable timestamp, outside the inclusive window
`start_time <= t <= end_time + 1h`, falsy station id, missing or
unparseable metric value, value failing validation, or no matching slot). -/
def readingContribution (field : Reading → Field) (valid : ℚ → Bool)
    (intervals : List Int) (startT endT : Int) (r : Reading) :
    Option (String × Int × ℚ) :=
  match r.time with
  | none => none
  | some t =>
    if startT ≤ t ∧ t ≤ endT + 3600 then
      match r.stationId with
      | none => none
      | some sid =>
        if sid = "" then none
        else
          match field r with
          | .null => none
          | .unparseable => none
          | .num v =>
            if valid v then
              match findSlot intervals t with
              | some slot => some (sid, slot, v)
              | none => none
            else none
    else none

/-- The list `station_data[sid][slot]` after the grouping loop: the metric
values of the readings contributing to that station and slot, in reading
order. -/
def slotValues (field : Reading → Field) (valid : ℚ → Bool)
    (weatherData : List Reading) (intervals : List Int) (startT endT : Int)
    (sid : String) (slot : Int) : List ℚ :=
  (weatherData.filterMap (readingContribution field valid intervals startT endT)).filterMap
    (fun c => if c.1 = sid ∧ c.2.1 = slot then some c.2.2 else none)

/-- Method `_format_time_label`: 12-hour display label of the interval's hour. -/
def formatTimeLabel (t : Int) : String :=
  let hour := (t.fdiv 3600).emod 24
  if hour = 0 then "12 AM"
  else if hour < 12 then s!"{hour} AM"
  else if hour = 12 then "12 PM"
  else s!"{hour - 12} PM"

/-- Method `_get_day_label`: compare calendar dates only. -/
def getDayLabel (t displayDate : Int) : String :=
  if t.fdiv 86400 = displayDate.fdiv 86400 then "Today"
  else if t.fdiv 86400 < displayDate.fdiv 86400 then "Yesterday"
  else "Tomorrow"

/-- Python's `round(x, digits)`.  (Python rounds half to even while
Mathlib's `round` is half up; the two differ only at exact half-ulp ties,
which no claim exercises.) -/
def roundTo (digits : Nat) (q : ℚ) : ℚ :=
  (round (q * 10 ^ digits) : ℤ) / 10 ^ digits

/-- One chart data point (`WaterLevelDataPoint` / `PrecipitationDataPoint`);
`level` is the `alert_level` / `intensity` field, `timestamp` the interval
start (its isoformat string is presentation). -/
structure IntervalDataPoint where
  label : String
  y : ℚ
  level : String
  day : String
  timestamp : Int
  count : Nat
  showLabel : Bool
  deriving DecidableEq, Repr

/-- One slot of `_format_interval_data_with_labels`: average of the
contributing values (0 when none), classified before rounding, rounded,
with display labels; `show_label` is true on even hours
(`LABEL_INTERVAL_HOURS = 2`). -/
def formatIntervalPoint (classify : ℚ → String) (digits : Nat)
    (displayDate intervalTime : Int) (values : List ℚ) : IntervalDataPoint :=
  let avg : ℚ := if values.isEmpty then 0 else values.sum / values.length
  { label := formatTimeLabel intervalTime
    y := roundTo digits avg
    level := classify avg
    day := getDayLabel intervalTime displayDate
    timestamp := intervalTime
    count := values.length
    showLabel := decide ((intervalTime.fdiv 3600).emod 24 % 2 = 0) }

/-- Method `get_24hour_intervals_per_station`, shared shape of the two services:
resolve the display date, build the 24 hourly slots, group the readings,
and emit one ordered slot list per configured site. -/
def get24hourIntervalsPerStation (field : Reading → Field) (valid : ℚ → Bool)
    (classify : ℚ → String) (digits : Nat) (weatherData : List Reading)
    (sites : List Site) (targetDate : Option Int) (now : Int) :
    List (String × List IntervalDataPoint) :=
  let displayDate := resolveDisplayDate weatherData targetDate now
  let startT := displayStartTime displayDate
  let endT := displayEndTime displayDate
  let intervals := createHourlyIntervals startT endT
  sites.map (fun site =>
    (site.id, intervals.map (fun i =>
      formatIntervalPoint classify digits displayDate i
        (slotValues field valid weatherData intervals startT endT site.id i))))

/-- src/services/water_level_service.py: WaterLevel metric, range [0, 15],
alert-level classifier, rounding to 2 decimals. -/
def waterLevel24hIntervals (weatherData : List Reading) (sites : List Site)
    (targetDate : Option Int) (now : Int) : List (String × List IntervalDataPoint) :=
  get24hourIntervalsPerStation (fun r => r.waterLevel) validWaterLevel
    (fun q => alertLevelOfValue (some q)) 2 weatherData sites targetDate now

/-- src/services/precipitation_service.py: HourlyRain metric, non-negative
values, rainfall-intensity classifier, rounding to 1 decimal. -/
def precipitation24hIntervals (weatherData : List Reading) (sites : List Site)
    (targetDate : Option Int) (now : Int) : List (String × List IntervalDataPoint) :=
  get24hourIntervalsPerStation (fun r => r.hourlyRain) validRainfall
    (fun q => rainfallLevelOfValue (some q)) 1 weatherData sites targetDate now

/-! ## Aggregation lemmas -/

theorem createHourlyIntervals_eq (n : Nat) :
    ∀ start : Int, createHourlyIntervals start (start + 3600 * n)
      = (List.range (n + 1)).map (fun i : Nat => start + 3600 * (i : Int)) := by
  induction n with
  | zero =>
    intro start
    rw [createHourlyIntervals, dif_pos (by omega), createHourlyIntervals,
      dif_neg (by omega)]
    have hr : List.range 1 = [0] := by decide
    rw [hr]
    simp
  | succ n ih =>
    intro start
    rw [createHourlyIntervals, dif_pos (by omega)]
    have hend : start + 3600 * ((n + 1 : Nat) : Int) = (start + 3600) + 3600 * (n : Int) := by
      push_cast
      ring
    rw [hend, ih (start + 3600), List.range_succ_eq_map (n + 1)]
    simp only [List.map_cons, List.map_map, Nat.cast_zero, mul_zero, add_zero]
    refine congrArg (start :: ·) ?_
    refine List.map_congr_left fun i _ => ?_
    simp only [Function.comp, Nat.succ_eq_add_one]
    push_cast
    ring

/-- The 24 hourly slot starts of one display day. -/
theorem createHourlyIntervals_day (s : Int) :
    createHourlyIntervals s (s + 23 * 3600)
      = (List.range 24).map (fun i : Nat => s + 3600 * (i : Int)) := by
  have h := createHourlyIntervals_eq 23 s
  have he : s + 3600 * ((23 : Nat) : Int) = s + 23 * 3600 := by norm_num
  rw [he] at h
  exact h

theorem roundTo_zero (digits : Nat) : roundTo digits 0 = 0 := by
  simp [roundTo]

/-- A time inside slot `k`'s half-open hour window is found at slot `k`. -/
theorem findSlot_range (n : Nat) :
    ∀ (start t : Int) (k : Nat), k ≤ n →
      start + 3600 * k ≤ t → t < start + 3600 * k + 3600 →
      findSlot ((List.range (n + 1)).map (fun i : Nat => start + 3600 * (i : Int))) t
        = some (start + 3600 * k) := by
  induction n with
  | zero =>
    intro start t k hk h1 h2
    interval_cases k
    have hr : List.range 1 = [0] := by decide
    rw [hr]
    simp only [List.map_cons, List.map_nil]
    unfold findSlot
    rw [List.find?_cons_of_pos]
    simp only [Bool.and_eq_true, decide_eq_true_eq]
    push_cast at h1 h2
    omega
  | succ n ih =>
    intro start t k hk h1 h2
    rw [List.range_succ_eq_map]
    simp only [List.map_cons, List.map_map, Nat.cast_zero, mul_zero, add_zero]
    have hfun : ((fun i : Nat => start + 3600 * (i : Int)) ∘ Nat.succ)
        = fun i : Nat => (start + 3600) + 3600 * (i : Int) := by
      funext i
      simp only [Function.comp, Nat.succ_eq_add_one]
      push_cast
      ring
    cases k with
    | zero =>
      unfold findSlot
      rw [List.find?_cons_of_pos]
      · simp
      · simp only [Bool.and_eq_true, decide_eq_true_eq]
        push_cast at h1 h2
        omega
    | succ k =>
      unfold findSlot
      rw [List.find?_cons_of_neg]
      · rw [hfun]
        have h := ih (start + 3600) t k (by omega)
          (by push_cast at h1 ⊢; omega) (by push_cast at h2 ⊢; omega)
        unfold findSlot at h
        rw [h]
        congr 1
        push_cast
        ring
      · simp only [Bool.and_eq_true, decide_eq_true_eq, not_and, not_lt]
        intro _
        push_cast at h1
        omega

/-- A time at or past the end of the last slot is found in no slot. -/
theorem findSlot_range_none (n : Nat) :
    ∀ (start t : Int), start + 3600 * n ≤ t →
      findSlot ((List.range n).map (fun i : Nat => start + 3600 * (i : Int))) t = none := by
  induction n with
  | zero =>
    intro start t h
    simp [findSlot]
  | succ n ih =>
    intro start t h
    rw [List.range_succ_eq_map]
    simp only [List.map_cons, List.map_map, Nat.cast_zero, mul_zero, add_zero]
    have hfun : ((fun i : Nat => start + 3600 * (i : Int)) ∘ Nat.succ)
        = fun i : Nat => (start + 3600) + 3600 * (i : Int) := by
      funext i
      simp only [Function.comp, Nat.succ_eq_add_one]
      push_cast
      ring
    unfold findSlot
    rw [List.find?_cons_of_neg]
    · rw [hfun]
      exact ih (start + 3600) t (by push_cast at h ⊢; omega)
    · simp only [Bool.and_eq_true, decide_eq_true_eq, not_and, not_lt]
      intro _
      push_cast at h
      omega

/-- Shared shape result for both interval services: one entry per configured
site, each with exactly 24 slots; a slot with no contributing readings has
count 0, value 0, and the category of the 0 average. -/
theorem get24_shape (field : Reading → Field) (valid : ℚ → Bool)
    (classify : ℚ → String) (digits : Nat) (weatherData : List Reading)
    (sites : List Site) (targetDate : Option Int) (now : Int) :
    ((get24hourIntervalsPerStation field valid classify digits weatherData
        sites targetDate now).map Prod.fst = sites.map Site.id) ∧
    ∀ pr ∈ get24hourIntervalsPerStation field valid classify digits weatherData
        sites targetDate now,
      pr.2.length = 24 ∧
      ∀ p ∈ pr.2, p.count = 0 → p.y = 0 ∧ p.level = classify 0 := by
  unfold get24hourIntervalsPerStation
  constructor
  · simp [List.map_map, Function.comp]
  · intro pr hpr
    rcases List.mem_map.1 hpr with ⟨site, hsite, rfl⟩
    constructor
    · simp only [List.length_map]
      rw [show displayEndTime (resolveDisplayDate weatherData targetDate now)
            = displayStartTime (resolveDisplayDate weatherData targetDate now) + 23 * 3600
          from rfl]
      rw [createHourlyIntervals_day]
      simp
    · intro p hp hcount
      rcases List.mem_map.1 hp with ⟨i, hi, rfl⟩
      have hnil : slotValues field valid weatherData
          (createHourlyIntervals
            (displayStartTime (resolveDisplayDate weatherData targetDate now))
            (displayEndTime (resolveDisplayDate weatherData targetDate now)))
          (displayStartTime (resolveDisplayDate weatherData targetDate now))
          (displayEndTime (resolveDisplayDate weatherData targetDate now))
          site.id i = [] := by
        refine List.length_eq_zero.1 ?_
        simpa [formatIntervalPoint] using hcount
      rw [hnil]
      constructor
      · simp [formatIntervalPoint, roundTo_zero]
      · simp [formatIntervalPoint]

/-- C6. For every reading list (including `[]`) and every station of the
configured site list, each interval service returns exactly 24 slots for
that station; a slot with zero contributing readings has count 0, value 0,
and the no-data category — the classifier applied to the 0 average, which
is `normal` for water level and `none` for precipitation. -/
theorem interval_aggregation_always_24_slots (weatherData : List Reading)
    (sites : List Site) (targetDate : Option Int) (now : Int) :
    ((waterLevel24hIntervals weatherData sites targetDate now).map Prod.fst
      = sites.map Site.id) ∧
    (∀ pr ∈ waterLevel24hIntervals weatherData sites targetDate now,
      pr.2.length = 24 ∧
      ∀ p ∈ pr.2, p.count = 0 → p.y = 0 ∧ p.level = "normal") ∧
    ((precipitation24hIntervals weatherData sites targetDate now).map Prod.fst
      = sites.map Site.id) ∧
    (∀ pr ∈ precipitation24hIntervals weatherData sites targetDate now,
      pr.2.length = 24 ∧
      ∀ p ∈ pr.2, p.count = 0 → p.y = 0 ∧ p.level = "none") := by
  have hw := get24_shape (fun r => r.waterLevel) validWaterLevel
    (fun q => alertLevelOfValue (some q)) 2 weatherData sites targetDate now
  have hp := get24_shape (fun r => r.hourlyRain) validRainfall
    (fun q => rainfallLevelOfValue (some q)) 1 weatherData sites targetDate now
  have hwn : alertLevelOfValue (some 0) = "normal" := by
    norm_num [alertLevelOfValue, WATER_CRITICAL, WATER_WARNING, WATER_ALERT,
      WATER_ADVISORY]
  have hpn : rainfallLevelOfValue (some 0) = "none" := by
    norm_num [rainfallLevelOfValue, RAINFALL_HEAVY, RAINFALL_MODERATE,
      RAINFALL_LIGHT]
  refine ⟨hw.1, ?_, hp.1, ?_⟩
  · intro pr hpr
    refine ⟨(hw.2 pr hpr).1, fun p hp' hc => ?_⟩
    obtain ⟨hy, hl⟩ := (hw.2 pr hpr).2 p hp' hc
    exact ⟨hy, hl.trans hwn⟩
  · intro pr hpr
    refine ⟨(hp.2 pr hpr).1, fun p hp' hc => ?_⟩
    obtain ⟨hy, hl⟩ := (hp.2 pr hpr).2 p hp' hc
    exact ⟨hy, hl.trans hpn⟩

/-- Witness for C6: one site, no readings; each service yields a single
24-slot list. -/
theorem interval_aggregation_always_24_slots_witness :
    (waterLevel24hIntervals [] [⟨"St1", "Station A"⟩] (some 0) 0).map
      (fun pr => pr.2.length) = [24] ∧
    (precipitation24hIntervals [] [⟨"St1", "Station A"⟩] (some 0) 0).map
      (fun pr => pr.2.length) = [24] := by
  have h := interval_aggregation_always_24_slots [] [⟨"St1", "Station A"⟩] (some 0) 0
  obtain ⟨aw, lw, hlw⟩ : ∃ a l,
      waterLevel24hIntervals [] [⟨"St1", "Station A"⟩] (some 0) 0 = [(a, l)] :=
    ⟨_, _, rfl⟩
  obtain ⟨ap, lp, hlp⟩ : ∃ a l,
      precipitation24hIntervals [] [⟨"St1", "Station A"⟩] (some 0) 0 = [(a, l)] :=
    ⟨_, _, rfl⟩
  have h1 := (h.2.1 (aw, lw) (by rw [hlw]; exact List.mem_singleton.2 rfl)).1
  have h2 := (h.2.2.2 (ap, lp) (by rw [hlp]; exact List.mem_singleton.2 rfl)).1
  rw [hlw, hlp]
  simp only [List.map_cons, List.map_nil]
  exact ⟨by rw [h1], by rw [h2]⟩

/-- C7. A reading whose parsed instant is exactly a slot boundary (an
exact hour within the display window) is assigned to the later slot: the
slot whose start equals the instant.  Each slot's interval is half-open —
among the 24 slots, exactly the one starting at the instant satisfies
`interval_time <= t < interval_time + 1h`, and the grouping loop yields
that slot's contribution. -/
theorem slot_boundary_assigns_later_slot (startT : Int) (k : Nat)
    (h1 : 1 ≤ k) (h23 : k ≤ 23) :
    findSlot (createHourlyIntervals startT (startT + 23 * 3600)) (startT + 3600 * k)
      = some (startT + 3600 * k) ∧
    (∀ i ∈ createHourlyIntervals startT (startT + 23 * 3600),
      ((i ≤ startT + 3600 * k ∧ startT + 3600 * k < i + 3600)
        ↔ i = startT + 3600 * k)) ∧
    (∀ (field : Reading → Field) (valid : ℚ → Bool) (r : Reading) (sid : String) (v : ℚ),
      r.time = some (startT + 3600 * k) → r.stationId = some sid → sid ≠ "" →
      field r = .num v → valid v = true →
      readingContribution field valid (createHourlyIntervals startT (startT + 23 * 3600))
          startT (startT + 23 * 3600) r
        = some (sid, startT + 3600 * k, v)) := by
  have hiv := createHourlyIntervals_day startT
  have hfind : findSlot (createHourlyIntervals startT (startT + 23 * 3600))
      (startT + 3600 * k) = some (startT + 3600 * k) := by
    rw [hiv]
    exact findSlot_range 23 startT (startT + 3600 * k) k h23 (by omega)
      (by omega)
  refine ⟨hfind, ?_, ?_⟩
  · intro i hi
    rw [hiv] at hi
    rcases List.mem_map.1 hi with ⟨j, hj, rfl⟩
    have hj24 : j < 24 := List.mem_range.1 hj
    constructor
    · rintro ⟨ha, hb'⟩
      have : j = k := by omega
      rw [this]
    · intro he
      rw [he]
      omega
  · intro field valid r sid v ht hsid hne hf hv
    have hcond : startT ≤ startT + 3600 * (k : Int) ∧
        startT + 3600 * (k : Int) ≤ (startT + 23 * 3600) + 3600 := by omega
    simp only [readingContribution, ht, hsid, hf, if_pos hcond, hv, if_neg hne,
      if_true, hfind]

/-- Witness for C7: the boundary instant 3600 (1 AM) lands in the slot that
starts at 3600, and a concrete reading at that instant contributes there. -/
theorem slot_boundary_assigns_later_slot_witness :
    findSlot (createHourlyIntervals 0 (0 + 23 * 3600)) 3600 = some 3600 ∧
    readingContribution (fun r => r.waterLevel) validWaterLevel
        (createHourlyIntervals 0 (0 + 23 * 3600)) 0 (0 + 23 * 3600)
        { time := some 3600, stationId := some "St1", waterLevel := .num 5 }
      = some ("St1", 3600, 5) := by
  have h := slot_boundary_assigns_later_slot 0 1 (by decide) (by decide)
  norm_num at h
  refine ⟨h.1, ?_⟩
  exact h.2.2 (fun r => r.waterLevel) validWaterLevel
    { time := some 3600, stationId := some "St1", waterLevel := .num 5 }
    "St1" 5 (by decide) rfl (by decide) rfl (by decide)

/-- C10. A reading whose parsed instant is exactly the end of the last
slot (slot 23 start + 1 hour, midnight of the next day) passes the
inclusive window filter `[start_time, end_time + 1h]`, satisfies no slot's
half-open interval, therefore contributes to no bucket (its contribution is
`none`) while the remaining readings are processed unchanged. -/
theorem window_end_reading_unbucketed (startT : Int) (field : Reading → Field)
    (valid : ℚ → Bool) (r : Reading) (rest : List Reading)
    (ht : r.time = some (startT + 24 * 3600)) :
    (startT ≤ startT + 24 * 3600 ∧
      startT + 24 * 3600 ≤ (startT + 23 * 3600) + 3600) ∧
    findSlot (createHourlyIntervals startT (startT + 23 * 3600))
      (startT + 24 * 3600) = none ∧
    readingContribution field valid
      (createHourlyIntervals startT (startT + 23 * 3600))
      startT (startT + 23 * 3600) r = none ∧
    ∀ (sid : String) (slot : Int),
      slotValues field valid (r :: rest)
          (createHourlyIntervals startT (startT + 23 * 3600))
          startT (startT + 23 * 3600) sid slot
        = slotValues field valid rest
          (createHourlyIntervals startT (startT + 23 * 3600))
          startT (startT + 23 * 3600) sid slot := by
  have hiv := createHourlyIntervals_day startT
  have hnone : findSlot (createHourlyIntervals startT (startT + 23 * 3600))
      (startT + 24 * 3600) = none := by
    rw [hiv]
    exact findSlot_range_none 24 startT (startT + 24 * 3600) (by omega)
  have hcontrib : readingContribution field valid
      (createHourlyIntervals startT (startT + 23 * 3600))
      startT (startT + 23 * 3600) r = none := by
    unfold readingContribution
    rw [ht]
    dsimp only
    rw [if_pos (show startT ≤ startT + 24 * 3600 ∧
        startT + 24 * 3600 ≤ startT + 23 * 3600 + 3600 by omega)]
    cases hst : r.stationId with
    | none => rfl
    | some sid =>
      dsimp only
      by_cases hs : sid = ""
      · rw [if_pos hs]
      · rw [if_neg hs]
        cases hf : field r with
        | null => rfl
        | unparseable => rfl
        | num v =>
          dsimp only
          by_cases hv : valid v
          · rw [if_pos hv, hnone]
          · rw [if_neg hv]
  refine ⟨⟨by omega, by omega⟩, hnone, hcontrib, ?_⟩
  intro sid slot
  unfold slotValues
  rw [List.filterMap_cons_none hcontrib]

/-- Witness for C10 at midnight instant 86400 of day 0 with a concrete
water-level reading. -/
theorem window_end_reading_unbucketed_witness :
    findSlot (createHourlyIntervals 0 (0 + 23 * 3600)) (0 + 24 * 3600) = none ∧
    readingContribution (fun r => r.waterLevel) validWaterLevel
      (createHourlyIntervals 0 (0 + 23 * 3600)) 0 (0 + 23 * 3600)
      { time := some 86400, stationId := some "St1", waterLevel := .num 5 }
      = none := by
  have h := window_end_reading_unbucketed 0 (fun r => r.waterLevel)
    validWaterLevel
    { time := some 86400, stationId := some "St1", waterLevel := .num 5 } []
    (by decide)
  exact ⟨h.2.1, h.2.2.1⟩

end WeatherPortal
